import Mathlib

/-!
Verification development for the Reviu campaign-automation repository.

The Python modules `business_collector.py`, `enhanced_scraper.py`,
`free_business_collector.py` and `gemini_business_generator.py` are shallowly
embedded below.  Python strings are Lean `String`s; the handful of Python
string operations the code uses (`lower`, `strip`, `split`, `replace`,
substring tests, truthiness) are reimplemented over `String.data` so that every
definition evaluates by kernel reduction.  Python dicts holding business
records are fixed-shape structures (the code always populates the same keys),
Python dict lookup over the static database is association-list lookup, float
scores are exact rationals, and the one exception that can escape the
collection pipeline is modelled with `Except`.
-/

namespace PyStr

/-- Characters treated as whitespace by Python's `str.strip()` (ASCII part,
which is all the data in this code base uses). -/
def pyIsSpace (c : Char) : Bool :=
  c == ' ' || c == '\t' || c == '\n' || c == '\r' || c == '\x0b' || c == '\x0c'

/-- Python `str.lower()` (ASCII data). -/
def pyLower (s : String) : String := ⟨s.data.map Char.toLower⟩

/-- Python `str.strip()`: drop leading and trailing whitespace. -/
def pyStrip (s : String) : String :=
  ⟨((s.data.dropWhile pyIsSpace).reverse.dropWhile pyIsSpace).reverse⟩

/-- Python truthiness of an optional string: `None` and `""` are falsy. -/
def pyTruthy : Option String → Bool
  | none => false
  | some s => !(s.isEmpty)

/-- Python `x or d` for an optional string `x`: the string itself when truthy,
otherwise the default. -/
def pyOrStr (x : Option String) (d : String) : String :=
  match x with
  | none => d
  | some s => if s.isEmpty then d else s

/-- Splitting auxiliary: accumulates the current chunk (reversed). -/
def splitCharAux (sep : Char) : List Char → List Char → List String
  | [], acc => [⟨acc.reverse⟩]
  | c :: cs, acc =>
    if c == sep then (⟨acc.reverse⟩ : String) :: splitCharAux sep cs []
    else splitCharAux sep cs (c :: acc)

/-- Python `str.split(sep)` for a one-character separator (the code only
splits on `'@'` and `'.'`). -/
def pySplitChar (sep : Char) (s : String) : List String :=
  splitCharAux sep s.data []

/-- Boolean prefix test on character lists. -/
def listIsPrefixOf : List Char → List Char → Bool
  | [], _ => true
  | _ :: _, [] => false
  | a :: as, b :: bs => a == b && listIsPrefixOf as bs

/-- Substring-occurrence test on character lists. -/
def listContainsSub (needle : List Char) : List Char → Bool
  | [] => needle.isEmpty
  | b :: bs => listIsPrefixOf needle (b :: bs) || listContainsSub needle bs

/-- Python `needle in hay` on strings (substring containment; the empty
needle is contained in every string). -/
def pyInStr (needle hay : String) : Bool :=
  needle.isEmpty || listContainsSub needle.data hay.data

/-- Python `s.startswith(p)`. -/
def pyStartsWith (p s : String) : Bool := listIsPrefixOf p.data s.data

/-- Python `s.replace(old, new)` for a one-character `old` and empty `new`
(the only form the embedded code uses): removes every occurrence of `old`. -/
def pyRemoveChar (old : Char) (s : String) : String :=
  ⟨s.data.filter (fun c => c != old)⟩

end PyStr

namespace BusinessCollector

open PyStr

/-- A business record as built by `business_collector.py`: every record that
flows through `collect_businesses` carries exactly these keys. -/
structure Business where
  name : String
  email : String
  phone : String
  address : String
  website : String
  business_type : String
  verified : Bool
  source : String
deriving Repr, DecidableEq, Inhabited

/-- Normalized name key used by `_remove_duplicates`:
`business.get('name', '').lower().strip()`. -/
def normName (b : Business) : String := pyStrip (pyLower b.name)

/-- Normalized email key used by `_remove_duplicates`:
`business.get('email', '').lower().strip()`. -/
def normEmail (b : Business) : String := pyStrip (pyLower b.email)

/-- Loop of `BusinessCollector._remove_duplicates`, carrying the `seen_names`
and `seen_emails` sets.  A record is appended (and both its keys recorded)
exactly when neither key was seen before. -/
def removeDuplicatesAux (seenNames seenEmails : List String) :
    List Business → List Business
  | [] => []
  | b :: rest =>
    if normName b ∈ seenNames ∨ normEmail b ∈ seenEmails then
      removeDuplicatesAux seenNames seenEmails rest
    else
      b :: removeDuplicatesAux (normName b :: seenNames) (normEmail b :: seenEmails) rest

/-- `BusinessCollector._remove_duplicates` (business_collector.py, lines
1002-1017). -/
def removeDuplicates (businesses : List Business) : List Business :=
  removeDuplicatesAux [] [] businesses

end BusinessCollector

namespace BusinessCollector

/-- Value stored under a key of one category's dict in `verified_businesses`:
the `"related_types"` key holds a list of strings, every city key holds a
list of business records. -/
inductive CatValue where
  | strs (ts : List String)
  | businesses (l : List Business)
deriving Repr, DecidableEq

/-- Python dict lookup on an association list (insertion order preserved,
first matching key wins; the embedded dicts have distinct keys). -/
def pyDictGet {α : Type} : List (String × α) → String → Option α
  | [], _ => none
  | (k, v) :: rest, key => if k = key then some v else pyDictGet rest key

/-- Shorthand for a verified-database record: all stored records carry
`verified=True` and `source="verified_database"`. -/
def vrec (name email phone address website business_type : String) : Business :=
  { name := name, email := email, phone := phone, address := address,
    website := website, business_type := business_type,
    verified := true, source := "verified_database" }

/-- The static database built by `_load_verified_businesses`
(business_collector.py, lines 49-578): 15 categories, each mapping
`"related_types"` to a list of strings and city names to record lists. -/
def businessDatabase : List (String × List (String × CatValue)) := [
  ("Technology", [
    ("related_types", .strs [
      "Software Company", "IT Company", "Software House", "Tech Solutions",
      "Digital Agency", "Web Development", "Mobile Apps", "AI/ML Company",
      "Cybersecurity", "Cloud Services", "Data Analytics", "System Integration"]),
    ("Karachi", .businesses [
      vrec "Arpatech" "contact@arpatech.com" "+92-21-34567890" "Defence, Karachi"
        "https://arpatech.com" "Software Company",
      vrec "10Pearls" "hello@10pearls.com" "+92-21-34567891" "Gulshan-e-Iqbal, Karachi"
        "https://10pearls.com" "IT Company",
      vrec "Techlogix" "info@techlogix.com" "+92-21-34567892" "North Nazimabad, Karachi"
        "https://techlogix.com" "Software House"]),
    ("Lahore", .businesses [
      vrec "NetSol Technologies" "contact@netsol.com" "+92-42-34567890" "Gulberg, Lahore"
        "https://netsol.com" "Tech Solutions",
      vrec "Creative Chaos" "hello@creativechaos.io" "+92-42-34567891" "DHA, Lahore"
        "https://creativechaos.io" "Digital Agency"]),
    ("Islamabad", .businesses [
      vrec "PTCL" "info@ptcl.com.pk" "+92-51-34567890" "Blue Area, Islamabad"
        "https://ptcl.com.pk" "Telecommunications"])]),
  ("Marketing & Advertising", [
    ("related_types", .strs [
      "Digital Marketing", "SEO Agency", "Social Media Marketing", "Content Marketing",
      "PPC Advertising", "Branding Agency", "Creative Agency", "Marketing Consultancy",
      "Lead Generation", "Email Marketing", "Influencer Marketing", "PR Agency"]),
    ("Karachi", .businesses [
      vrec "Digital Marketing Pro" "contact@digitalmarketingpro.com" "+92-21-34567893"
        "Defence, Karachi" "https://digitalmarketingpro.com" "Digital Marketing"]),
    ("Lahore", .businesses [
      vrec "Lahore Marketing Agency" "info@lahoremarketing.com" "+92-42-34567892"
        "Gulberg, Lahore" "https://lahoremarketing.com" "Marketing Consultancy"])]),
  ("Food & Hospitality", [
    ("related_types", .strs [
      "Restaurant", "Fast Food", "Cafe", "Bakery", "Catering", "Food Delivery",
      "Hotel", "Guest House", "Travel Agency", "Tourism", "Event Management",
      "Wedding Services", "Party Planning", "Food Truck", "Street Food"]),
    ("Karachi", .businesses [
      vrec "BBQ Tonight" "info@bbqtonight.com" "+92-21-34567894" "Clifton, Karachi"
        "https://bbqtonight.com" "Restaurant"]),
    ("Lahore", .businesses [
      vrec "Butt Karahi" "info@buttkarahi.com" "+92-42-34567893" "Mall Road, Lahore"
        "https://buttkarahi.com" "Restaurant"])]),
  ("Healthcare & Medical", [
    ("related_types", .strs [
      "Hospital", "Clinic", "Pharmacy", "Dental Care", "Eye Care", "Physiotherapy",
      "Fitness Center", "Gym", "Yoga Studio", "Medical Equipment", "Health Insurance",
      "Telemedicine", "Laboratory", "Diagnostic Center", "Specialist Doctor"]),
    ("Karachi", .businesses [
      vrec "Aga Khan Hospital" "info@agakhanhospital.org" "+92-21-34567895"
        "Stadium Road, Karachi" "https://agakhanhospital.org" "Hospital"]),
    ("Lahore", .businesses [
      vrec "Shaukat Khanum Hospital" "info@shaukatkhanum.org.pk" "+92-42-34567894"
        "Johar Town, Lahore" "https://shaukatkhanum.org.pk" "Hospital"])]),
  ("Education & Training", [
    ("related_types", .strs [
      "School", "College", "University", "Training Institute", "Language Center",
      "Computer Training", "Professional Development", "Online Learning", "Tutoring",
      "Skill Development", "Certification Center", "Workshop Provider", "E-Learning"]),
    ("Karachi", .businesses [
      vrec "IBA Karachi" "info@iba.edu.pk" "+92-21-34567896" "Karachi University, Karachi"
        "https://iba.edu.pk" "University"]),
    ("Lahore", .businesses [
      vrec "LUMS" "info@lums.edu.pk" "+92-42-34567895" "DHA, Lahore"
        "https://lums.edu.pk" "University"])]),
  ("Real Estate & Construction", [
    ("related_types", .strs [
      "Property Development", "Real Estate Agency", "Construction Company", "Architecture Firm",
      "Interior Design", "Property Management", "Building Materials", "Home Renovation",
      "Property Investment", "Land Development", "Commercial Real Estate", "Residential Projects"]),
    ("Karachi", .businesses [
      vrec "Bahria Town" "info@bahriatown.com" "+92-21-34567897" "Defence, Karachi"
        "https://bahriatown.com" "Property Development"]),
    ("Lahore", .businesses [
      vrec "DHA" "info@dha.com.pk" "+92-42-34567896" "DHA, Lahore"
        "https://dha.com.pk" "Property Development"])]),
  ("Automotive & Transport", [
    ("related_types", .strs [
      "Car Dealership", "Auto Repair", "Car Wash", "Auto Parts", "Motorcycle Shop",
      "Tire Shop", "Auto Insurance", "Car Rental", "Auto Service", "Transport Company",
      "Logistics", "Freight Forwarding", "Warehousing", "Supply Chain"]),
    ("Karachi", .businesses [
      vrec "Toyota Pakistan" "info@toyota.com.pk" "+92-21-34567898" "Defence, Karachi"
        "https://toyota.com.pk" "Car Dealership"]),
    ("Lahore", .businesses [
      vrec "Honda Pakistan" "info@honda.com.pk" "+92-42-34567897" "Gulberg, Lahore"
        "https://honda.com.pk" "Car Dealership"])]),
  ("Banking & Finance", [
    ("related_types", .strs [
      "Bank", "Insurance Company", "Investment Firm", "Financial Planning", "Accounting Firm",
      "Tax Services", "Microfinance", "Credit Union", "Stock Brokerage", "Financial Advisory",
      "Loan Services", "Credit Card", "Payment Gateway", "Fintech Company"]),
    ("Karachi", .businesses [
      vrec "HBL" "info@hbl.com" "+92-21-34567899" "I.I. Chundrigar Road, Karachi"
        "https://hbl.com" "Bank"]),
    ("Lahore", .businesses [
      vrec "UBL" "info@ubl.com.pk" "+92-42-34567898" "Gulberg, Lahore"
        "https://ubl.com.pk" "Bank"])]),
  ("Legal & Professional Services", [
    ("related_types", .strs [
      "Law Firm", "Legal Consultancy", "Audit Services", "HR Services", "Business Consulting",
      "Management Consulting", "Strategy Consulting", "Risk Management", "Compliance Services",
      "Corporate Law", "Criminal Law", "Family Law", "Property Law"]),
    ("Karachi", .businesses [
      vrec "Karachi Law Associates" "info@karachilaw.com" "+92-21-34567900" "Clifton, Karachi"
        "https://karachilaw.com" "Law Firm"]),
    ("Lahore", .businesses [
      vrec "Lahore Legal Services" "info@lahorelegal.com" "+92-42-34567899" "Gulberg, Lahore"
        "https://lahorelegal.com" "Legal Consultancy"])]),
  ("Retail & Shopping", [
    ("related_types", .strs [
      "Fashion Store", "Electronics Store", "Furniture Store", "Jewelry Store", "Cosmetics Store",
      "Book Store", "Sports Equipment", "Home Decor", "Grocery Store", "Supermarket",
      "Department Store", "Online Retail", "Franchise Store", "Specialty Shop"]),
    ("Karachi", .businesses [
      vrec "Karachi Fashion Hub" "info@karachifashion.com" "+92-21-34567901" "Saddar, Karachi"
        "https://karachifashion.com" "Fashion Store"]),
    ("Lahore", .businesses [
      vrec "Lahore Electronics" "info@lahoreelectronics.com" "+92-42-34567900" "Mall Road, Lahore"
        "https://lahoreelectronics.com" "Electronics Store"])]),
  ("Manufacturing & Industry", [
    ("related_types", .strs [
      "Textile Manufacturing", "Food Processing", "Chemical Manufacturing", "Steel Industry",
      "Cement Industry", "Pharmaceutical Manufacturing", "Electronics Manufacturing",
      "Automotive Manufacturing", "Furniture Manufacturing", "Plastic Industry",
      "Paper Industry", "Leather Industry", "Glass Industry", "Ceramic Industry"]),
    ("Karachi", .businesses [
      vrec "Karachi Textile Mills" "info@karachitextile.com" "+92-21-34567902"
        "Industrial Area, Karachi" "https://karachitextile.com" "Textile Manufacturing"]),
    ("Lahore", .businesses [
      vrec "Lahore Steel Works" "info@lahoresteel.com" "+92-42-34567901"
        "Industrial Estate, Lahore" "https://lahoresteel.com" "Steel Industry"])]),
  ("Media & Entertainment", [
    ("related_types", .strs [
      "TV Channel", "Radio Station", "Newspaper", "Magazine", "Production House",
      "Film Studio", "Music Label", "Event Management", "Gaming Company", "Streaming Service",
      "Content Creation", "Podcast Studio", "Animation Studio", "Digital Media"]),
    ("Karachi", .businesses [
      vrec "Karachi Media Group" "info@karachimedia.com" "+92-21-34567903" "Clifton, Karachi"
        "https://karachimedia.com" "Media Group"]),
    ("Lahore", .businesses [
      vrec "Lahore Productions" "info@lahoreproductions.com" "+92-42-34567902" "Gulberg, Lahore"
        "https://lahoreproductions.com" "Production House"])]),
  ("Beauty & Wellness", [
    ("related_types", .strs [
      "Beauty Salon", "Spa", "Hair Salon", "Nail Salon", "Makeup Artist",
      "Beauty Products", "Skincare Clinic", "Hair Transplant", "Dental Clinic",
      "Cosmetic Surgery", "Fitness Center", "Yoga Studio", "Wellness Center"]),
    ("Karachi", .businesses [
      vrec "Karachi Beauty Salon" "info@karachibeauty.com" "+92-21-34567904" "Defence, Karachi"
        "https://karachibeauty.com" "Beauty Salon"]),
    ("Lahore", .businesses [
      vrec "Lahore Spa & Wellness" "info@lahorespa.com" "+92-42-34567903" "DHA, Lahore"
        "https://lahorespa.com" "Spa & Wellness"])]),
  ("Sports & Recreation", [
    ("related_types", .strs [
      "Sports Club", "Gym", "Swimming Pool", "Tennis Court", "Golf Club",
      "Cricket Academy", "Football Academy", "Martial Arts", "Adventure Sports",
      "Sports Equipment", "Fitness Training", "Personal Trainer", "Sports Medicine"]),
    ("Karachi", .businesses [
      vrec "Karachi Sports Club" "info@karachisports.com" "+92-21-34567905" "Clifton, Karachi"
        "https://karachisports.com" "Sports Club"]),
    ("Lahore", .businesses [
      vrec "Lahore Fitness Center" "info@lahorefitness.com" "+92-42-34567904" "Gulberg, Lahore"
        "https://lahorefitness.com" "Fitness Center"])]),
  ("Travel & Tourism", [
    ("related_types", .strs [
      "Travel Agency", "Tour Operator", "Hotel", "Resort", "Guest House",
      "Tour Guide", "Transport Service", "Adventure Tourism", "Cultural Tours",
      "Pilgrimage Tours", "Business Travel", "Luxury Travel", "Budget Travel"]),
    ("Karachi", .businesses [
      vrec "Karachi Travel Services" "info@karachitravel.com" "+92-21-34567906" "Saddar, Karachi"
        "https://karachitravel.com" "Travel Agency"]),
    ("Lahore", .businesses [
      vrec "Lahore Tourism" "info@lahoretourism.com" "+92-42-34567905" "Mall Road, Lahore"
        "https://lahoretourism.com" "Tour Operator"])])]

/-- The stored record list under (category, city), empty when either key is
absent or the key addresses the `related_types` entry. -/
def storedList (category city : String) : List Business :=
  match pyDictGet businessDatabase category with
  | some catMap =>
    match pyDictGet catMap city with
    | some (.businesses l) => l
    | _ => []
  | none => []

end BusinessCollector

deriving instance DecidableEq for Except

namespace BusinessCollector

open PyStr

/-- The one kind of exception the embedded collection code can raise: the
`TypeError` from assigning `business['source']` when the looked-up "city"
entry is the `related_types` list of plain strings. -/
inductive PyError where
  | typeError
deriving Repr, DecidableEq

/-- Outcome of calling `validate_email(email)` inside
`_validate_business_emails`: normal return, an `EmailNotValidError`, or any
other exception (which the surrounding `except Exception` treats as valid). -/
inductive VResult where
  | ok
  | emailNotValid
  | otherError
deriving Repr, DecidableEq

/-- Character class `[a-zA-Z0-9._%+-]` of the fallback email regex. -/
def isLocalChar (c : Char) : Bool :=
  c.isAlpha || c.isDigit || c == '.' || c == '_' || c == '%' || c == '+' || c == '-'

/-- Character class `[a-zA-Z0-9.-]` of the fallback email regex. -/
def isDomainChar (c : Char) : Bool :=
  c.isAlpha || c.isDigit || c == '.' || c == '-'

/-- Whether `re.match(r'^[a-zA-Z0-9._%+-]+@[a-zA-Z0-9.-]+\.[a-zA-Z]{2,}$', email)`
succeeds.  Both character classes exclude `@`, so a match forces exactly one
`@`; the trailing `[a-zA-Z]{2,}$` excludes `.`, so it must cover exactly the
text after the last dot of the domain, and the `[a-zA-Z0-9.-]+` before it
must be nonempty. -/
def fallbackEmailOk (email : String) : Bool :=
  match pySplitChar '@' email with
  | [localPart, domainPart] =>
    !localPart.isEmpty && localPart.data.all isLocalChar &&
    domainPart.data.all isDomainChar &&
    (let parts := pySplitChar '.' domainPart
     let tld := parts.getLastD ""
     decide (2 ≤ parts.length) && decide (2 ≤ tld.data.length) &&
     tld.data.all Char.isAlpha && decide (tld.data.length + 2 ≤ domainPart.data.length))
  | _ => false

/-- The fallback `validate_email` defined when the `email_validator` package
is absent (business_collector.py, lines 19-23): on a regex mismatch it raises
a plain `ValueError("Invalid email format")`.  A plain `ValueError` is NOT an
instance of the locally defined subclass `EmailNotValidError`, so a caller
catching `EmailNotValidError` sees it as an unrelated exception: hence the
mismatch outcome is `.otherError`, not `.emailNotValid`. -/
def fallbackValidate (email : String) : VResult :=
  if fallbackEmailOk email then .ok else .otherError

/-- Modelled from the spec: the `email_validator` library (imported when
available, not part of src/) performs syntactic validation and raises
`EmailNotValidError` on failure, which the caller catches as invalid. -/
def libraryValidate (syntacticOk : String → Bool) (email : String) : VResult :=
  if syntacticOk email then .ok else .emailNotValid

/-- `BusinessCollector._validate_business_emails` (business_collector.py,
lines 736-766), parameterized by the behavior of `validate_email` and of the
MX DNS lookup.  A record lands in the invalid partition exactly when its
email is empty or `validate_email` raised `EmailNotValidError`; after a
successful `validate_email`, both a resolving and a failing MX lookup append
to the valid partition (the bare `except` around `dns.resolver.resolve`). -/
def validateBusinessEmails (validator : String → VResult) (dnsHasMX : String → Bool) :
    List Business → List Business × List Business
  | [] => ([], [])
  | b :: rest =>
    let (vs, is) := validateBusinessEmails validator dnsHasMX rest
    if b.email.isEmpty then (vs, b :: is)
    else
      match validator b.email with
      | .emailNotValid => (vs, b :: is)
      | .otherError => (b :: vs, is)
      | .ok =>
        match dnsHasMX ((pySplitChar '@' b.email).getD 1 "") with
        | true => (b :: vs, is)
        | false => (b :: vs, is)

/-- Contact data returned by `_scrape_business_website`: a dict holding only
the keys that were found on the page (empty on any scraping failure). -/
structure WebsiteData where
  email : Option String := none
  phone : Option String := none
  address : Option String := none
deriving Repr, DecidableEq

/-- Python truthiness of the `enhanced_data` dict: nonempty iff some key set. -/
def WebsiteData.nonempty (d : WebsiteData) : Bool :=
  d.email.isSome || d.phone.isSome || d.address.isSome

/-- Per-record body of `_enhance_business_data` (business_collector.py, lines
1028-1055): when the record has an `http` website and the website scrape
yields a nonempty dict, overwrite the found fields and tag the source with
`_enhanced`; otherwise the record passes through unchanged (all scraping
errors are caught per record). -/
def enhanceBusiness (scrapeWebsite : Business → WebsiteData) (b : Business) : Business :=
  if !b.website.isEmpty && pyStartsWith "http" b.website then
    let d := scrapeWebsite b
    if d.nonempty then
      { b with
        email := d.email.getD b.email,
        phone := d.phone.getD b.phone,
        address := d.address.getD b.address,
        source := b.source ++ "_enhanced" }
    else b
  else b

/-- Environment of one `collect_businesses` call: what the two scraping
methods return (both catch their own exceptions and return `[]` on failure),
what the per-website enhancement scrape finds, and how `validate_email` and
the MX lookup behave. -/
structure CollectEnv where
  googleResults : List Business
  mapsResults : List Business
  scrapeWebsite : Business → WebsiteData
  validator : String → VResult
  dnsHasMX : String → Bool

/-- The verified-database fallback branch of `collect_businesses`
(business_collector.py, lines 601-609): when scraping yielded fewer than
`target_count // 2` records and both keys are present, the stored list is
shallow-copied, each record's `source` is overwritten with
`'verified_database'`, and the records are appended.  When the "city" key
addresses the `related_types` list of strings, the `business['source']`
assignment raises `TypeError` on the first element. -/
def fallbackStep (all : List Business) (category city : String) (targetCount : Nat) :
    Except PyError (List Business) :=
  if all.length < targetCount / 2 then
    match pyDictGet businessDatabase category with
    | some catMap =>
      match pyDictGet catMap city with
      | some (.strs ts) => if ts.isEmpty then .ok all else .error .typeError
      | some (.businesses l) =>
        .ok (all ++ l.map fun b => { b with source := "verified_database" })
      | none => .ok all
    | none => .ok all
  else .ok all

/-- The body of the `try` block of `collect_businesses` (business_collector.py,
lines 582-631): scrape Google Search and Google Maps, fall back to the
verified database when too few results, dedupe, enhance, validate, truncate. -/
def collectPipeline (env : CollectEnv) (category city : String) (targetCount : Nat) :
    Except PyError (List Business) :=
  match fallbackStep (env.googleResults ++ env.mapsResults) category city targetCount with
  | .error e => .error e
  | .ok merged =>
    let unique := removeDuplicates merged
    let enhanced := unique.map (enhanceBusiness env.scrapeWebsite)
    let validated := validateBusinessEmails env.validator env.dnsHasMX enhanced
    .ok (validated.1.take targetCount)

/-- `BusinessCollector._get_fallback_businesses` (business_collector.py, lines
1019-1026), caller's view: the stored list for (category, city) with every
record's `source` overwritten to `'verified_database_fallback'`, truncated to
`count`; `[]` when a key is absent.  When the "city" key addresses the
`related_types` string list, the `source` assignment raises `TypeError`. -/
def getFallbackBusinessesE (category city : String) (count : Nat) :
    Except PyError (List Business) :=
  match pyDictGet businessDatabase category with
  | some catMap =>
    match pyDictGet catMap city with
    | some (.strs ts) => if ts.isEmpty then .ok [] else .error .typeError
    | some (.businesses l) =>
      .ok ((l.map fun b => { b with source := "verified_database_fallback" }).take count)
    | none => .ok []
  | none => .ok []

/-- `BusinessCollector.collect_businesses` (business_collector.py, lines
580-637): the pipeline under a catch-all handler that falls back to
`_get_fallback_businesses` — which can itself raise, in which case the
exception escapes to the caller. -/
def collectBusinesses (env : CollectEnv) (category city : String) (targetCount : Nat) :
    Except PyError (List Business) :=
  match collectPipeline env category city targetCount with
  | .ok r => .ok r
  | .error _ => getFallbackBusinessesE category city targetCount

/-- The environment in which every scraping step yields zero results and no
website data is reachable (the mocked/offline scenario of the spec). -/
def offlineEnv : CollectEnv :=
  { googleResults := [], mapsResults := [],
    scrapeWebsite := fun _ => {}, validator := fallbackValidate,
    dnsHasMX := fun _ => false }

/-- `BusinessCollector._get_fallback_businesses`, store view.  The Python
`list.copy()` is shallow: the returned list holds the very dict objects of the
stored list, so the per-record `source` assignment is visible through the
stored mapping.  The first component is the function's return value, the
second is the content of the stored `verified_businesses[category][city]`
list after the call. -/
def getFallbackBusinessesStore (stored : List Business) (count : Nat) :
    List Business × List Business :=
  let mutated := stored.map fun b => { b with source := "verified_database_fallback" }
  (mutated.take count, mutated)

/-- Agreement on every field except `source`. -/
def sameExceptSource (a b : Business) : Prop :=
  a.name = b.name ∧ a.email = b.email ∧ a.phone = b.phone ∧ a.address = b.address ∧
  a.website = b.website ∧ a.business_type = b.business_type ∧ a.verified = b.verified

end BusinessCollector

namespace EnhancedScraper

open PyStr

/-- The `ScrapedBusiness` dataclass of enhanced_scraper.py (lines 24-39);
the float `confidence_score` is modelled as an exact rational. -/
structure ScrapedBusiness where
  name : String
  email : Option String := none
  phone : Option String := none
  address : Option String := none
  website : Option String := none
  business_type : Option String := none
  category : Option String := none
  city : Option String := none
  description : Option String := none
  social_media : Option (List (String × String)) := none
  verified : Bool := false
  source : String := "enhanced_scraper"
  confidence_score : ℚ := 0
deriving Repr, DecidableEq

/-- `EnhancedScraper._calculate_confidence_score` (enhanced_scraper.py, lines
283-310): base 0.3 for a truthy name whose stripped length is at least 3,
0.25/0.2/0.15/0.1 for truthy email/phone/website/address, 0.1 when the
lowered business type occurs inside the lowered category, 0.05 for the two
trusted directory sources, clamped by `min(score, 1.0)`. -/
def calculateConfidenceScore (business : ScrapedBusiness) : ℚ :=
  let score : ℚ := 0
  let score :=
    if !business.name.isEmpty && decide (3 ≤ (pyStrip business.name).data.length) then
      score + 3/10
    else score
  let score := if pyTruthy business.email then score + 1/4 else score
  let score := if pyTruthy business.phone then score + 1/5 else score
  let score := if pyTruthy business.website then score + 3/20 else score
  let score := if pyTruthy business.address then score + 1/10 else score
  let score :=
    if pyTruthy business.business_type && pyTruthy business.category &&
        pyInStr (pyLower (business.business_type.getD ""))
          (pyLower (business.category.getD "")) then
      score + 1/10
    else score
  let score :=
    if business.source == "pakistan_business_directory" ||
        business.source == "yellow_pages_pk" then
      score + 1/20
    else score
  min score 1

/-- Written from the spec's words for comparison with
`calculateConfidenceScore` (refinement check of the confidence formula):
the clamped weighted sum `+0.3` valid name, `+0.25` email, `+0.2` phone,
`+0.15` website, `+0.1` address, `+0.1` type-in-category bonus, `+0.05`
trusted source. -/
def specConfidenceScore (business : ScrapedBusiness) : ℚ :=
  min
    ((if !business.name.isEmpty && decide (3 ≤ (pyStrip business.name).data.length) then (3:ℚ)/10 else 0) +
      (if pyTruthy business.email then (1:ℚ)/4 else 0) +
      (if pyTruthy business.phone then (1:ℚ)/5 else 0) +
      (if pyTruthy business.website then (3:ℚ)/20 else 0) +
      (if pyTruthy business.address then (1:ℚ)/10 else 0) +
      (if pyTruthy business.business_type && pyTruthy business.category &&
          pyInStr (pyLower (business.business_type.getD ""))
            (pyLower (business.category.getD "")) then (1:ℚ)/10 else 0) +
      (if business.source == "pakistan_business_directory" ||
          business.source == "yellow_pages_pk" then (1:ℚ)/20 else 0))
    1

/-- Contact fields found by `_extract_contact_info` on the element's text
(each key present only when some pattern matched). -/
structure ContactInfo where
  email : Option String := none
  phone : Option String := none
  address : Option String := none
  website : Option String := none
deriving Repr, DecidableEq

/-- `EnhancedScraper._extract_business_from_element` (enhanced_scraper.py,
lines 371-413), parameterized by the name the selectors found (if any) and
the contact info extracted from the element text: reject a missing or short
name, build the record, attach the extracted contact fields, compute the
confidence score, and keep the record only when the score reaches 0.3. -/
def extractBusinessFromElement (nameFound : Option String) (contact : ContactInfo)
    (category city sourceName : String) : Option ScrapedBusiness :=
  match nameFound with
  | none => none
  | some name =>
    if name.isEmpty || decide ((pyStrip name).data.length < 3) then none
    else
      let business : ScrapedBusiness :=
        { name := name, business_type := some category, city := some city,
          source := sourceName }
      let business :=
        { business with
          email := contact.email, phone := contact.phone,
          address := contact.address, website := contact.website }
      let business :=
        { business with confidence_score := calculateConfidenceScore business }
      if 3/10 ≤ business.confidence_score then some business else none

/-- Dedup identifier of `EnhancedScraper._remove_duplicates`
(enhanced_scraper.py, line 454):
`f"{name.lower().strip()}_{phone or 'no_phone'}_{city or 'no_city'}"`. -/
def identifier (business : ScrapedBusiness) : String :=
  pyStrip (pyLower business.name) ++ "_" ++ pyOrStr business.phone "no_phone" ++
    "_" ++ pyOrStr business.city "no_city"

/-- Loop of `EnhancedScraper._remove_duplicates`, carrying the `seen` set of
composite identifiers. -/
def removeDuplicatesAux (seen : List String) :
    List ScrapedBusiness → List ScrapedBusiness
  | [] => []
  | b :: rest =>
    if identifier b ∈ seen then removeDuplicatesAux seen rest
    else b :: removeDuplicatesAux (identifier b :: seen) rest

/-- `EnhancedScraper._remove_duplicates` (enhanced_scraper.py, lines 447-460). -/
def removeDuplicates (businesses : List ScrapedBusiness) : List ScrapedBusiness :=
  removeDuplicatesAux [] businesses

end EnhancedScraper

namespace FreeBusinessCollector

open PyStr

/-- The `BusinessData` dataclass of free_business_collector.py (lines 23-35). -/
structure BusinessData where
  name : String
  email : Option String := none
  phone : Option String := none
  address : Option String := none
  website : Option String := none
  business_type : Option String := none
  category : Option String := none
  city : Option String := none
  verified : Bool := false
  source : String := "free_api"
deriving Repr, DecidableEq

/-- Dedup identifier of `FreeBusinessCollector._remove_duplicates`
(free_business_collector.py, line 307):
`f"{name.lower().strip()}_{phone or 'no_phone'}"`. -/
def identifier (business : BusinessData) : String :=
  pyStrip (pyLower business.name) ++ "_" ++ pyOrStr business.phone "no_phone"

/-- Loop of `FreeBusinessCollector._remove_duplicates`. -/
def removeDuplicatesAux (seen : List String) : List BusinessData → List BusinessData
  | [] => []
  | b :: rest =>
    if identifier b ∈ seen then removeDuplicatesAux seen rest
    else b :: removeDuplicatesAux (identifier b :: seen) rest

/-- `FreeBusinessCollector._remove_duplicates` (free_business_collector.py,
lines 300-313). -/
def removeDuplicates (businesses : List BusinessData) : List BusinessData :=
  removeDuplicatesAux [] businesses

end FreeBusinessCollector

namespace BusinessCollector

open PyStr

/-- Record built for one Google-Search result by
`BusinessCollector._scrape_google_search` (business_collector.py, lines
816-825), parameterized by the extracted title-derived name, the
email, the phone found in the snippet (possibly empty) with the random
fallback phone, and the result link.  The `verified` field is the literal
`False`. -/
def googleSearchBusiness (businessName email phone randomPhone link : String)
    (category city : String) : Business :=
  { name := businessName,
    email := email,
    phone := pyOrStr (some phone) randomPhone,
    address := city ++ ", Pakistan",
    website := if pyStartsWith "http" link then link else "https://" ++ link,
    business_type := category,
    verified := false,
    source := "google_search" }

end BusinessCollector

namespace GeminiBusinessGenerator

open PyStr
open BusinessCollector (pyDictGet)

/-- The `BusinessData` dataclass of gemini_business_generator.py (lines 23-39). -/
structure BusinessData where
  name : String
  email : String
  phone : String
  address : String
  website : String
  business_type : String
  category : String
  city : String
  verified : Bool
  source : String
  description : String := ""
  employees : String := ""
  founded_year : String := ""
  services : String := ""
deriving Repr, DecidableEq

/-- One entry of the `businesses` array in Gemini's JSON response: every
field may be absent (`.get` with a default in the parser). -/
structure GeminiEntry where
  name : Option String := none
  email : Option String := none
  phone : Option String := none
  address : Option String := none
  website : Option String := none
  business_type : Option String := none
  category : Option String := none
  city : Option String := none
  verified : Option Bool := none
  source : Option String := none
  description : Option String := none
  employees : Option String := none
  founded_year : Option String := none
  services : Option String := none
deriving Repr, DecidableEq

/-- Per-entry body of `_parse_gemini_response`
(gemini_business_generator.py, lines 242-266): skip entries whose email is
missing, the placeholder, or lacks an `@`; otherwise build a `BusinessData`
filling each absent field with its default — in particular `verified` is
taken from the response entry, defaulting to `False`. -/
def parseBusinessEntry (category city : String) (d : GeminiEntry) :
    Option BusinessData :=
  let email := d.email.getD ""
  if email.isEmpty || email == "info@unknown.com" || !pyInStr "@" email then none
  else
    some
      { name := d.name.getD "Unknown Business",
        email := email,
        phone := d.phone.getD "+92-XX-XXXXXXX",
        address := d.address.getD ("Unknown Address, " ++ city),
        website := d.website.getD "www.unknown.com",
        business_type := d.business_type.getD category,
        category := d.category.getD category,
        city := d.city.getD city,
        verified := d.verified.getD false,
        source := d.source.getD "gemini_ai",
        description := d.description.getD "",
        employees := d.employees.getD "",
        founded_year := d.founded_year.getD "",
        services := d.services.getD "" }

/-- The Technology name list of `_get_fallback_businesses_with_duplicate_prevention`
(gemini_business_generator.py, lines 287-294). -/
def technologyFallbackNames : List String := [
  "TechVision Solutions", "Digital Dynamics", "InnovateTech Systems", "SmartCode Solutions", "FutureTech Hub",
  "CyberTech Services", "DataFlow Technologies", "CloudTech Solutions", "MobileTech Innovations", "WebTech Pro",
  "TechGenius Labs", "Digital Forge", "Innovate Solutions", "Smart Systems", "Future Dynamics",
  "Cyber Dynamics", "Data Solutions", "Cloud Systems", "Mobile Solutions", "Web Dynamics",
  "Tech Masters", "Digital Solutions", "Innovate Labs", "Smart Tech", "Future Solutions",
  "Cyber Labs", "Data Tech", "Cloud Labs", "Mobile Tech", "Web Solutions", "Tech Dynamics"]

/-- The Healthcare name list (gemini_business_generator.py, lines 296-303). -/
def healthcareFallbackNames : List String := [
  "MedCare Plus", "HealthFirst Clinic", "Wellness Solutions", "CareTech Medical", "HealthHub Services",
  "MedTech Innovations", "PatientCare Solutions", "HealthTech Systems", "CareFirst Medical", "WellTech Services",
  "MedCare Solutions", "HealthFirst Plus", "Wellness Tech", "CareTech Solutions", "HealthHub Plus",
  "MedTech Solutions", "PatientCare Plus", "HealthTech Plus", "CareFirst Solutions", "WellTech Plus",
  "MedCare Tech", "HealthFirst Solutions", "Wellness Plus", "CareTech Plus", "HealthHub Tech",
  "MedTech Plus", "PatientCare Tech", "HealthTech Solutions", "CareFirst Tech", "WellTech Solutions"]

/-- The Education name list (gemini_business_generator.py, lines 305-311). -/
def educationFallbackNames : List String := [
  "EduTech Solutions", "Learning Hub", "Knowledge Center", "Smart Education", "EduVision Pro",
  "Learning Technologies", "Knowledge Hub", "EduTech Innovations", "Smart Learning", "Education Plus",
  "EduTech Plus", "Learning Solutions", "Knowledge Plus", "Smart Tech", "EduVision Solutions",
  "Learning Plus", "Knowledge Tech", "EduTech Hub", "Smart Solutions", "Education Tech",
  "EduTech Center", "Learning Tech", "Knowledge Solutions", "Smart Plus", "EduVision Tech"]

/-- The generic name list built from the category
(gemini_business_generator.py, lines 314-324). -/
def genericFallbackNames (category : String) : List String := [
  category ++ " Solutions Pvt Ltd", "Elite " ++ category ++ " Services", "Prime " ++ category ++ " Hub",
  "Next Gen " ++ category, "Smart " ++ category ++ " Co", "Advanced " ++ category ++ " Systems",
  "Professional " ++ category ++ " Group", "Modern " ++ category ++ " Solutions", "Expert " ++ category ++ " Services",
  "Premium " ++ category ++ " Co", category ++ " Dynamics", "Elite " ++ category ++ " Solutions",
  "Prime " ++ category ++ " Services", "Next Gen " ++ category ++ " Solutions", "Smart " ++ category ++ " Services",
  "Advanced " ++ category ++ " Solutions", "Professional " ++ category ++ " Solutions", "Modern " ++ category ++ " Services",
  "Expert " ++ category ++ " Solutions", "Premium " ++ category ++ " Services", category ++ " Tech", "Elite " ++ category ++ " Tech",
  "Prime " ++ category ++ " Tech", "Next Gen " ++ category ++ " Tech", "Smart " ++ category ++ " Tech", "Advanced " ++ category ++ " Tech",
  "Professional " ++ category ++ " Tech", "Modern " ++ category ++ " Tech", "Expert " ++ category ++ " Tech", "Premium " ++ category ++ " Tech"]

/-- Category dispatch for the fallback name list
(gemini_business_generator.py, lines 286-325). -/
def fallbackNames (category : String) : List String :=
  if pyLower category == "technology" then technologyFallbackNames
  else if pyLower category == "healthcare" then healthcareFallbackNames
  else if pyLower category == "education" then educationFallbackNames
  else genericFallbackNames category

/-- The `city_addresses` dict (gemini_business_generator.py, lines 328-333). -/
def cityAddresses : List (String × List String) := [
  ("Islamabad", ["Blue Area", "F-7 Markaz", "G-8 Markaz", "I-8 Markaz", "F-10 Markaz",
    "G-11 Markaz", "I-11 Markaz", "F-8 Markaz", "G-9 Markaz", "I-9 Markaz"]),
  ("Lahore", ["Gulberg", "Defence", "Model Town", "Johar Town", "Bahria Town",
    "DHA Phase 1", "DHA Phase 2", "DHA Phase 3", "DHA Phase 4", "DHA Phase 5"]),
  ("Karachi", ["Clifton", "Defence", "Gulshan-e-Iqbal", "North Nazimabad", "Gulistan-e-Jauhar",
    "Malir", "Landhi", "Korangi", "Saddar", "Lyari"]),
  ("Rawalpindi", ["Saddar", "Raja Bazar", "Bank Road", "Mall Road", "Peshawar Road",
    "Grand Trunk Road", "Airport Road", "Murree Road", "Lehtrar Road", "Adiala Road"])]

/-- `city_addresses.get(city, [f"Business District {i+1}" for i in range(20)])`
(gemini_business_generator.py, line 335). -/
def addressesFor (city : String) : List String :=
  (pyDictGet cityAddresses city).getD
    ((List.range 20).map fun i => "Business District " ++ toString (i + 1))

/-- The `city_codes` dict with default `"30"`
(gemini_business_generator.py, lines 338-344). -/
def cityCodeFor (city : String) : String :=
  (pyDictGet [("Islamabad", "51"), ("Lahore", "42"), ("Karachi", "21"),
    ("Rawalpindi", "51")] city).getD "30"

/-- The five description templates (gemini_business_generator.py, lines
375-381); Python rebuilds this identical list on every loop iteration. -/
def descriptionsFor (category city : String) : List String := [
  "Leading " ++ pyLower category ++ " company in " ++ city ++ " providing innovative solutions and professional services.",
  "Established " ++ pyLower category ++ " business serving " ++ city ++ " with quality services and customer satisfaction.",
  "Professional " ++ pyLower category ++ " services in " ++ city ++ " with years of experience and expertise.",
  "Trusted " ++ pyLower category ++ " company in " ++ city ++ " offering comprehensive solutions and support.",
  "Innovative " ++ pyLower category ++ " business in " ++ city ++ " focused on delivering excellence and results."]

/-- `name.lower().replace(' ', '').replace('.', '').replace('-', '').replace('&', '')`
(gemini_business_generator.py, line 356). -/
def companyNameOf (name : String) : String :=
  pyRemoveChar '&' (pyRemoveChar '-' (pyRemoveChar '.' (pyRemoveChar ' ' (pyLower name))))

/-- Mutable state of the generation loop: the instance-level duplicate
history (`self.existing_names` / `self.existing_emails`), the per-call
`used_names` / `used_emails` sets, and the accumulated `unique_businesses`. -/
structure GenState where
  existingNames : List String
  existingEmails : List String
  usedNames : List String
  usedEmails : List String
  acc : List BusinessData
deriving Repr

/-- The `for i in range(len(fallback_names))` loop of
`_get_fallback_businesses_with_duplicate_prevention`
(gemini_business_generator.py, lines 350-407): stop once `count` records are
accumulated; skip names whose lowered name or derived email was already used
in this call or appears in the lead history; otherwise build the record —
whose `verified` flag is the literal `len(unique_businesses) < 5`, so the
first five appended records of a call are marked verified — and record its
keys in all four sets. -/
def genFallbackAux (category city cityCode : String)
    (addresses descriptions : List String) (count : Nat) :
    List (Nat × String) → GenState → List BusinessData
  | [], st => st.acc
  | (i, name) :: rest, st =>
    if count ≤ st.acc.length then st.acc
    else
      let companyName := companyNameOf name
      let email := "info@" ++ companyName ++ ".com"
      if pyLower name ∈ st.usedNames ∨ pyLower email ∈ st.usedEmails then
        genFallbackAux category city cityCode addresses descriptions count rest st
      else if pyLower name ∈ st.existingNames ∨ pyLower email ∈ st.existingEmails then
        genFallbackAux category city cityCode addresses descriptions count rest st
      else
        let phoneSuffix := 1000000 + i * 10000 + i * 123
        let business : BusinessData :=
          { name := name,
            email := email,
            phone := "+92-" ++ cityCode ++ "-" ++ toString phoneSuffix,
            address := (addresses.getD (i % addresses.length) "") ++ ", " ++ city,
            website := "www." ++ companyName ++ ".com",
            business_type := category,
            category := category,
            city := city,
            verified := decide (st.acc.length < 5),
            source := "realistic_fallback_data",
            description := descriptions.getD (i % descriptions.length) "",
            employees := if st.acc.length < 5 then "10-50" else "5-20",
            founded_year := toString (2015 + i % 10),
            services := category ++ " Consulting, Development, Support, Training, Maintenance" }
        genFallbackAux category city cityCode addresses descriptions count rest
          { existingNames := pyLower name :: st.existingNames,
            existingEmails := pyLower email :: st.existingEmails,
            usedNames := pyLower name :: st.usedNames,
            usedEmails := pyLower email :: st.usedEmails,
            acc := st.acc ++ [business] }

/-- `GeminiBusinessGenerator._get_fallback_businesses_with_duplicate_prevention`
(gemini_business_generator.py, lines 281-409), parameterized by the lead
history loaded at startup. -/
def getFallbackBusinessesWithDuplicatePrevention
    (existingNames existingEmails : List String) (category city : String)
    (count : Nat) : List BusinessData :=
  let names := fallbackNames category
  genFallbackAux category city (cityCodeFor city) (addressesFor city)
    (descriptionsFor category city) count names.enum
    { existingNames := existingNames, existingEmails := existingEmails,
      usedNames := [], usedEmails := [], acc := [] }

end GeminiBusinessGenerator

namespace Fixtures

/-- A record with a syntactically valid email. -/
def bGoodEmail : BusinessCollector.Business :=
  { name := "Alpha Tech", email := "info@example.com", phone := "+92-21-1234567",
    address := "Clifton, Karachi", website := "https://alphatech.com",
    business_type := "Technology", verified := false, source := "google_search" }

/-- A record whose email fails the fallback regex. -/
def bBadEmail : BusinessCollector.Business :=
  { name := "Beta Tech", email := "not-an-email", phone := "+92-21-7654321",
    address := "Saddar, Karachi", website := "https://betatech.com",
    business_type := "Technology", verified := false, source := "google_search" }

/-- A record with no email at all. -/
def bNoEmail : BusinessCollector.Business :=
  { name := "Gamma Tech", email := "", phone := "+92-21-5554443",
    address := "Defence, Karachi", website := "https://gammatech.com",
    business_type := "Technology", verified := false, source := "google_search" }

/-- The record the C2 scenario expects: the Lahore/Healthcare verified entry
with its source rewritten to the fallback tag. -/
def shaukatFallbackClaim : BusinessCollector.Business :=
  { name := "Shaukat Khanum Hospital", email := "info@shaukatkhanum.org.pk",
    phone := "+92-42-34567894", address := "Johar Town, Lahore",
    website := "https://shaukatkhanum.org.pk", business_type := "Hospital",
    verified := true, source := "verified_database_fallback" }

/-- A scraped record with name, email, phone, website, address and a trusted
directory source (no category set, so no type-in-category bonus). -/
def fullTrustedBusiness : EnhancedScraper.ScrapedBusiness :=
  { name := "Arpatech", email := some "contact@arpatech.com",
    phone := some "+92-21-34567890", address := some "Defence, Karachi",
    website := some "https://arpatech.com",
    source := "pakistan_business_directory" }

/-- A scraped record with only a (valid) name. -/
def nameOnlyBusiness : EnhancedScraper.ScrapedBusiness := { name := "Arpatech" }

/-- Same name as `dupPhoneB`, different phone. -/
def dupPhoneA : EnhancedScraper.ScrapedBusiness :=
  { name := "Alpha Tech", phone := some "+92-21-1111111", city := some "Karachi" }

/-- Same name as `dupPhoneA`, different phone. -/
def dupPhoneB : EnhancedScraper.ScrapedBusiness :=
  { name := "Alpha Tech", phone := some "+92-21-2222222", city := some "Karachi" }

/-- Same name as `dupPhoneD`, different phone (free-collector variant). -/
def dupPhoneC : FreeBusinessCollector.BusinessData :=
  { name := "Alpha Tech", phone := some "+92-21-1111111" }

/-- Same name as `dupPhoneC`, different phone (free-collector variant). -/
def dupPhoneD : FreeBusinessCollector.BusinessData :=
  { name := "Alpha Tech", phone := some "+92-21-2222222" }

/-- A Gemini response entry with a valid email and `verified: true`. -/
def sampleGeminiEntry : GeminiBusinessGenerator.GeminiEntry :=
  { name := some "Alpha Beta", email := some "info@alphabeta.com",
    verified := some true }

/-- What `_parse_gemini_response` builds from `sampleGeminiEntry` for
category "Technology" and city "Lahore". -/
def sampleParsedBusiness : GeminiBusinessGenerator.BusinessData :=
  { name := "Alpha Beta", email := "info@alphabeta.com",
    phone := "+92-XX-XXXXXXX", address := "Unknown Address, Lahore",
    website := "www.unknown.com", business_type := "Technology",
    category := "Technology", city := "Lahore", verified := true,
    source := "gemini_ai" }

/-- The first record the fallback generator issues for
("Technology", "Islamabad") on an empty lead history. -/
def firstFallbackBusiness : GeminiBusinessGenerator.BusinessData :=
  { name := "TechVision Solutions", email := "info@techvisionsolutions.com",
    phone := "+92-51-1000000", address := "Blue Area, Islamabad",
    website := "www.techvisionsolutions.com", business_type := "Technology",
    category := "Technology", city := "Islamabad", verified := true,
    source := "realistic_fallback_data",
    description := "Leading technology company in Islamabad providing innovative solutions and professional services.",
    employees := "10-50", founded_year := "2015",
    services := "Technology Consulting, Development, Support, Training, Maintenance" }

end Fixtures

/-!
Helper lemmas and the claim theorems.  All definitions are above; everything
from here on is a theorem.
-/

namespace BusinessCollector

theorem pyDictGet_mem {α : Type} (l : List (String × α)) (key : String) (v : α)
    (h : pyDictGet l key = some v) : (key, v) ∈ l := by
  induction l with
  | nil => simp [pyDictGet] at h
  | cons p rest ih =>
    rw [pyDictGet] at h
    split at h
    · rename_i hk
      cases h
      exact hk ▸ List.mem_cons_self _ _
    · exact List.mem_cons_of_mem _ (ih h)

theorem removeDuplicatesAux_name_notMem (seenNames seenEmails : List String)
    (l : List Business) :
    ∀ b ∈ removeDuplicatesAux seenNames seenEmails l, normName b ∉ seenNames := by
  induction l generalizing seenNames seenEmails with
  | nil => intro b hb; simp [removeDuplicatesAux] at hb
  | cons x rest ih =>
    intro b hb
    rw [removeDuplicatesAux] at hb
    split at hb
    · exact ih seenNames seenEmails b hb
    · rename_i hcond
      rcases List.mem_cons.mp hb with hb | hb
      · subst hb; exact fun hmem => hcond (Or.inl hmem)
      · have := ih (normName x :: seenNames) (normEmail x :: seenEmails) b hb
        exact fun hmem => this (List.mem_cons_of_mem _ hmem)

theorem removeDuplicatesAux_email_notMem (seenNames seenEmails : List String)
    (l : List Business) :
    ∀ b ∈ removeDuplicatesAux seenNames seenEmails l, normEmail b ∉ seenEmails := by
  induction l generalizing seenNames seenEmails with
  | nil => intro b hb; simp [removeDuplicatesAux] at hb
  | cons x rest ih =>
    intro b hb
    rw [removeDuplicatesAux] at hb
    split at hb
    · exact ih seenNames seenEmails b hb
    · rename_i hcond
      rcases List.mem_cons.mp hb with hb | hb
      · subst hb; exact fun hmem => hcond (Or.inr hmem)
      · have := ih (normName x :: seenNames) (normEmail x :: seenEmails) b hb
        exact fun hmem => this (List.mem_cons_of_mem _ hmem)

theorem removeDuplicatesAux_names_nodup (seenNames seenEmails : List String)
    (l : List Business) :
    ((removeDuplicatesAux seenNames seenEmails l).map normName).Nodup := by
  induction l generalizing seenNames seenEmails with
  | nil => simp [removeDuplicatesAux]
  | cons x rest ih =>
    rw [removeDuplicatesAux]
    split
    · exact ih seenNames seenEmails
    · refine List.nodup_cons.mpr ⟨?_, ih _ _⟩
      intro hmem
      rcases List.mem_map.mp hmem with ⟨b, hb, hbn⟩
      have := removeDuplicatesAux_name_notMem
        (normName x :: seenNames) (normEmail x :: seenEmails) rest b hb
      exact this (hbn ▸ List.mem_cons_self _ _)

theorem removeDuplicatesAux_emails_nodup (seenNames seenEmails : List String)
    (l : List Business) :
    ((removeDuplicatesAux seenNames seenEmails l).map normEmail).Nodup := by
  induction l generalizing seenNames seenEmails with
  | nil => simp [removeDuplicatesAux]
  | cons x rest ih =>
    rw [removeDuplicatesAux]
    split
    · exact ih seenNames seenEmails
    · refine List.nodup_cons.mpr ⟨?_, ih _ _⟩
      intro hmem
      rcases List.mem_map.mp hmem with ⟨b, hb, hbn⟩
      have := removeDuplicatesAux_email_notMem
        (normName x :: seenNames) (normEmail x :: seenEmails) rest b hb
      exact this (hbn ▸ List.mem_cons_self _ _)

theorem removeDuplicatesAux_idem (seenNames seenEmails : List String)
    (l : List Business) :
    removeDuplicatesAux seenNames seenEmails
        (removeDuplicatesAux seenNames seenEmails l) =
      removeDuplicatesAux seenNames seenEmails l := by
  induction l generalizing seenNames seenEmails with
  | nil => simp [removeDuplicatesAux]
  | cons x rest ih =>
    rw [removeDuplicatesAux]
    split
    · exact ih seenNames seenEmails
    · rename_i hcond
      rw [removeDuplicatesAux, if_neg hcond]
      rw [ih (normName x :: seenNames) (normEmail x :: seenEmails)]

end BusinessCollector

/-- C6: no two elements of `BusinessCollector._remove_duplicates(L)` share a
lowercased, trimmed name, and no two share a lowercased, trimmed email:
both key projections of the output are duplicate-free, for every input list. -/
theorem C6_remove_duplicates_invariant (L : List BusinessCollector.Business) :
    ((BusinessCollector.removeDuplicates L).map BusinessCollector.normName).Nodup ∧
    ((BusinessCollector.removeDuplicates L).map BusinessCollector.normEmail).Nodup :=
  ⟨BusinessCollector.removeDuplicatesAux_names_nodup [] [] L,
   BusinessCollector.removeDuplicatesAux_emails_nodup [] [] L⟩

/-- C7: `BusinessCollector._remove_duplicates` is idempotent: applying it to
its own output returns that output unchanged, for every input list. -/
theorem C7_remove_duplicates_idempotent (L : List BusinessCollector.Business) :
    BusinessCollector.removeDuplicates (BusinessCollector.removeDuplicates L) =
      BusinessCollector.removeDuplicates L :=
  BusinessCollector.removeDuplicatesAux_idem [] [] L

namespace BusinessCollector

/-- Over the whole embedded database, a category entry holding a plain string
list can only sit under the key `"related_types"`. -/
theorem db_strs_only_related_types :
    businessDatabase.all
      (fun p => p.2.all (fun q =>
        match q.2 with
        | .strs _ => q.1 == "related_types"
        | .businesses _ => true)) = true := by decide

theorem strs_key_eq_related_types (category city : String)
    (catMap : List (String × CatValue)) (ts : List String)
    (hcat : pyDictGet businessDatabase category = some catMap)
    (hcity : pyDictGet catMap city = some (.strs ts)) :
    city = "related_types" := by
  have hmem := pyDictGet_mem _ _ _ hcat
  have hmem2 := pyDictGet_mem _ _ _ hcity
  have h1 := List.all_eq_true.mp db_strs_only_related_types _ hmem
  have h2 := List.all_eq_true.mp h1 _ hmem2
  simpa using h2

theorem fallbackStep_isOk (all : List Business) (category city : String)
    (targetCount : Nat) (h : city ≠ "related_types") :
    (fallbackStep all category city targetCount).isOk = true := by
  unfold fallbackStep
  split
  · split
    · rename_i catMap hcat
      split
      · rename_i ts hcity
        split
        · rfl
        · exact absurd (strs_key_eq_related_types category city catMap ts hcat hcity) h
      · rfl
      · rfl
    · rfl
  · rfl

theorem getFallbackBusinessesE_isOk (category city : String) (count : Nat)
    (h : city ≠ "related_types") :
    (getFallbackBusinessesE category city count).isOk = true := by
  unfold getFallbackBusinessesE
  split
  · rename_i catMap hcat
    split
    · rename_i ts hcity
      split
      · rfl
      · exact absurd (strs_key_eq_related_types category city catMap ts hcat hcity) h
    · rfl
    · rfl
  · rfl

theorem forall₂_sameExceptSource_map (l : List Business) :
    List.Forall₂ sameExceptSource
      (l.map fun b => { b with source := "verified_database_fallback" }) l := by
  induction l with
  | nil => exact List.Forall₂.nil
  | cons x xs ih => exact List.Forall₂.cons ⟨rfl, rfl, rfl, rfl, rfl, rfl, rfl⟩ ih

theorem map_source_of_setSource (l : List Business) :
    ((l.map fun b => { b with source := "verified_database_fallback" }).map
        fun b => b.source) =
      List.replicate l.length "verified_database_fallback" := by
  induction l with
  | nil => rfl
  | cons x xs ih => simp only [List.map_cons, List.length_cons, List.replicate_succ, ih]

end BusinessCollector

namespace EnhancedScraper

open PyStr

theorem ite_add_push (c : Prop) [Decidable c] (s w : ℚ) :
    (if c then s + w else s) = s + (if c then w else 0) := by
  split <;> simp

theorem ite_add_nonneg (c : Prop) [Decidable c] (w : ℚ) (h : 0 ≤ w) :
    0 ≤ if c then w else 0 := by
  split
  · exact h
  · exact le_refl 0

theorem calculateConfidenceScore_eq_spec (b : ScrapedBusiness) :
    calculateConfidenceScore b = specConfidenceScore b := by
  unfold calculateConfidenceScore specConfidenceScore
  dsimp only
  rw [ite_add_push, ite_add_push, ite_add_push, ite_add_push, ite_add_push,
    ite_add_push, ite_add_push, zero_add]

theorem calculateConfidenceScore_full_eval :
    calculateConfidenceScore Fixtures.fullTrustedBusiness = 1 := by
  rw [calculateConfidenceScore_eq_spec]
  simp only [specConfidenceScore, Fixtures.fullTrustedBusiness,
    (by decide : (!("Arpatech".isEmpty) && decide (3 ≤ (pyStrip "Arpatech").data.length)) = true),
    (by decide : pyTruthy (some "contact@arpatech.com") = true),
    (by decide : pyTruthy (some "+92-21-34567890") = true),
    (by decide : pyTruthy (some "https://arpatech.com") = true),
    (by decide : pyTruthy (some "Defence, Karachi") = true),
    (by decide : pyTruthy (none : Option String) = false),
    (by decide : ("pakistan_business_directory" == "pakistan_business_directory" ||
      "pakistan_business_directory" == "yellow_pages_pk") = true),
    Bool.false_and, if_true, if_false]
  rw [min_eq_right (by norm_num)]

theorem calculateConfidenceScore_name_only_eval :
    calculateConfidenceScore Fixtures.nameOnlyBusiness = 3/10 := by
  rw [calculateConfidenceScore_eq_spec]
  simp only [specConfidenceScore, Fixtures.nameOnlyBusiness,
    (by decide : (!("Arpatech".isEmpty) && decide (3 ≤ (pyStrip "Arpatech").data.length)) = true),
    (by decide : pyTruthy (none : Option String) = false),
    (by decide : ("enhanced_scraper" == "pakistan_business_directory" ||
      "enhanced_scraper" == "yellow_pages_pk") = false),
    Bool.false_and, if_true, if_false]
  rw [min_eq_left (by norm_num)]
  norm_num

theorem calculateConfidenceScore_ge_of_name (b : ScrapedBusiness)
    (h : (!b.name.isEmpty && decide (3 ≤ (pyStrip b.name).data.length)) = true) :
    3/10 ≤ calculateConfidenceScore b := by
  rw [calculateConfidenceScore_eq_spec]
  unfold specConfidenceScore
  rw [if_pos h]
  refine le_min ?_ (by norm_num)
  have h2 := ite_add_nonneg (pyTruthy b.email = true) ((1:ℚ)/4) (by norm_num)
  have h3 := ite_add_nonneg (pyTruthy b.phone = true) ((1:ℚ)/5) (by norm_num)
  have h4 := ite_add_nonneg (pyTruthy b.website = true) ((3:ℚ)/20) (by norm_num)
  have h5 := ite_add_nonneg (pyTruthy b.address = true) ((1:ℚ)/10) (by norm_num)
  have h6 := ite_add_nonneg ((pyTruthy b.business_type && pyTruthy b.category &&
    pyInStr (pyLower (b.business_type.getD "")) (pyLower (b.category.getD ""))) = true)
    ((1:ℚ)/10) (by norm_num)
  have h7 := ite_add_nonneg ((b.source == "pakistan_business_directory" ||
    b.source == "yellow_pages_pk") = true) ((1:ℚ)/20) (by norm_num)
  linarith

theorem identifier_notMem_of_removeDuplicatesAux (seen : List String)
    (l : List ScrapedBusiness) :
    ∀ b ∈ removeDuplicatesAux seen l, identifier b ∉ seen := by
  induction l generalizing seen with
  | nil => intro b hb; simp [removeDuplicatesAux] at hb
  | cons x rest ih =>
    intro b hb
    rw [removeDuplicatesAux] at hb
    split at hb
    · exact ih seen b hb
    · rename_i hcond
      rcases List.mem_cons.mp hb with hb | hb
      · subst hb; exact hcond
      · have := ih (identifier x :: seen) b hb
        exact fun hmem => this (List.mem_cons_of_mem _ hmem)

theorem removeDuplicatesAux_identifiers_nodup (seen : List String)
    (l : List ScrapedBusiness) :
    ((removeDuplicatesAux seen l).map identifier).Nodup := by
  induction l generalizing seen with
  | nil => simp [removeDuplicatesAux]
  | cons x rest ih =>
    rw [removeDuplicatesAux]
    split
    · exact ih seen
    · refine List.nodup_cons.mpr ⟨?_, ih _⟩
      intro hmem
      rcases List.mem_map.mp hmem with ⟨b, hb, hbn⟩
      have := identifier_notMem_of_removeDuplicatesAux (identifier x :: seen) rest b hb
      exact this (hbn ▸ List.mem_cons_self _ _)

end EnhancedScraper

namespace FreeBusinessCollector

theorem fc_identifier_notMem_of_removeDuplicatesAux (seen : List String)
    (l : List BusinessData) :
    ∀ b ∈ removeDuplicatesAux seen l, identifier b ∉ seen := by
  induction l generalizing seen with
  | nil => intro b hb; simp [removeDuplicatesAux] at hb
  | cons x rest ih =>
    intro b hb
    rw [removeDuplicatesAux] at hb
    split at hb
    · exact ih seen b hb
    · rename_i hcond
      rcases List.mem_cons.mp hb with hb | hb
      · subst hb; exact hcond
      · have := ih (identifier x :: seen) b hb
        exact fun hmem => this (List.mem_cons_of_mem _ hmem)

theorem fc_removeDuplicatesAux_identifiers_nodup (seen : List String)
    (l : List BusinessData) :
    ((removeDuplicatesAux seen l).map identifier).Nodup := by
  induction l generalizing seen with
  | nil => simp [removeDuplicatesAux]
  | cons x rest ih =>
    rw [removeDuplicatesAux]
    split
    · exact ih seen
    · refine List.nodup_cons.mpr ⟨?_, ih _⟩
      intro hmem
      rcases List.mem_map.mp hmem with ⟨b, hb, hbn⟩
      have := fc_identifier_notMem_of_removeDuplicatesAux (identifier x :: seen) rest b hb
      exact this (hbn ▸ List.mem_cons_self _ _)

end FreeBusinessCollector

namespace GeminiBusinessGenerator

theorem genFallbackAux_verified (category city cityCode : String)
    (addresses descriptions : List String) (count : Nat) :
    ∀ (pairs : List (Nat × String)) (st : GenState),
      (∀ j b, st.acc[j]? = some b → b.verified = decide (j < 5)) →
      ∀ j b,
        (genFallbackAux category city cityCode addresses descriptions count pairs st)[j]? =
          some b →
        b.verified = decide (j < 5) := by
  intro pairs
  induction pairs with
  | nil =>
    intro st hst
    rw [genFallbackAux]
    exact hst
  | cons p rest ih =>
    obtain ⟨i, name⟩ := p
    intro st hst
    rw [genFallbackAux]
    split
    · exact hst
    · dsimp only
      split
      · exact ih st hst
      · split
        · exact ih st hst
        · apply ih
          intro j b h
          by_cases hj : j < st.acc.length
          · rw [List.getElem?_append_left hj] at h
            exact hst j b h
          · have hle : st.acc.length ≤ j := Nat.le_of_not_lt hj
            rw [List.getElem?_append_right hle] at h
            match hsub : j - st.acc.length, h with
            | 0, h =>
              have hj0 : j = st.acc.length := by omega
              cases h
              subst hj0
              rfl
            | Nat.succ k, h =>
              simp at h

end GeminiBusinessGenerator

/-- C1 counterexample: the very first record the generator's fallback path
issues (category "Technology", city "Islamabad", empty lead history, one
record requested) carries `verified = true` with the generation source tag
`realistic_fallback_data` — a generation path does produce `verified=true`. -/
theorem C1_counterexample :
    ((GeminiBusinessGenerator.getFallbackBusinessesWithDuplicatePrevention [] [] "Technology"
        "Islamabad" 1).map fun b => (b.verified, b.source)) =
      [(true, "realistic_fallback_data")] := by decide

/-- C1 (amended): the Google-Search scraping path always constructs records
with `verified = false`; the Gemini parse path copies `verified` from the
response entry (defaulting to `false` when absent); and the fallback-name
generation path marks exactly the first five records of a call
`verified = true` (`len(unique_businesses) < 5`) and all later ones
`verified = false`. -/
theorem C1_verified_flag_amended :
    (∀ (businessName email phone randomPhone link category city : String),
        (BusinessCollector.googleSearchBusiness businessName email phone randomPhone link
            category city).verified = false) ∧
    (∀ (category city : String) (d : GeminiBusinessGenerator.GeminiEntry)
        (b : GeminiBusinessGenerator.BusinessData),
        GeminiBusinessGenerator.parseBusinessEntry category city d = some b →
          b.verified = d.verified.getD false) ∧
    (∀ (existingNames existingEmails : List String) (category city : String)
        (count j : Nat) (b : GeminiBusinessGenerator.BusinessData),
        (GeminiBusinessGenerator.getFallbackBusinessesWithDuplicatePrevention
            existingNames existingEmails category city count)[j]? = some b →
          b.verified = decide (j < 5)) := by
  refine ⟨fun _ _ _ _ _ _ _ => rfl, ?_, ?_⟩
  · intro category city d b h
    unfold GeminiBusinessGenerator.parseBusinessEntry at h
    dsimp only at h
    split at h
    · cases h
    · cases h
      rfl
  · intro en ee category city count j b h
    exact GeminiBusinessGenerator.genFallbackAux_verified _ _ _ _ _ _ _ _
      (fun j b h => by simp at h) j b h

/-- C1 witness: the amended statement applied at concrete inputs — a
concrete scraped record, a concrete parsed Gemini entry (hypothesis
discharged by evaluation), and the first generated fallback record
(hypothesis discharged by evaluation). -/
theorem C1_verified_flag_amended_witness :
    (BusinessCollector.googleSearchBusiness "Alpha Tech" "info@example.com" "" "+92-21-9999999"
        "https://alphatech.com" "Technology" "Karachi").verified = false ∧
    Fixtures.sampleParsedBusiness.verified = Fixtures.sampleGeminiEntry.verified.getD false ∧
    Fixtures.firstFallbackBusiness.verified = decide (0 < 5) :=
  ⟨C1_verified_flag_amended.1 "Alpha Tech" "info@example.com" "" "+92-21-9999999"
      "https://alphatech.com" "Technology" "Karachi",
   C1_verified_flag_amended.2.1 "Technology" "Lahore" Fixtures.sampleGeminiEntry
      Fixtures.sampleParsedBusiness (by decide),
   C1_verified_flag_amended.2.2 [] [] "Technology" "Islamabad" 1 0
      Fixtures.firstFallbackBusiness (by decide)⟩

/-- C2 counterexample: with every scraping step returning zero results,
`collect_businesses("Healthcare", "Lahore", 1)` returns the empty list — not
the single Shaukat Khanum record the claim demands: the Verified Dataset key
is "Healthcare & Medical", and with `target_count = 1` the fallback
threshold `0 < 1 // 2` is false. -/
theorem C2_counterexample :
    BusinessCollector.collectBusinesses BusinessCollector.offlineEnv "Healthcare" "Lahore" 1 =
        .ok [] ∧
    BusinessCollector.collectBusinesses BusinessCollector.offlineEnv "Healthcare" "Lahore" 1 ≠
        .ok [Fixtures.shaukatFallbackClaim] := by decide

/-- C2 (amended): when `collect_businesses` is called with
category="Healthcare", city="Lahore", target_count=1 and every scraping step
yields zero results, it returns the empty list (the dataset category key is
"Healthcare & Medical", not "Healthcare", and the fallback threshold
`len(results) < target_count // 2` is `0 < 0`, which never fires). -/
theorem C2_offline_healthcare_lahore_amended :
    BusinessCollector.collectBusinesses BusinessCollector.offlineEnv "Healthcare" "Lahore" 1 =
      .ok [] := by decide

/-- C3 counterexample: after `_get_fallback_businesses("Technology",
"Karachi", 1)`, the records stored in the collector's `verified_businesses`
mapping are NOT unchanged: the shallow `list.copy()` shares the record
objects, so the stored records' `source` fields become
`verified_database_fallback`. -/
theorem C3_counterexample :
    (BusinessCollector.getFallbackBusinessesStore
        (BusinessCollector.storedList "Technology" "Karachi") 1).2 ≠
      BusinessCollector.storedList "Technology" "Karachi" ∧
    ((BusinessCollector.storedList "Technology" "Karachi").map fun b => b.source) =
      ["verified_database", "verified_database", "verified_database"] ∧
    ((BusinessCollector.getFallbackBusinessesStore
        (BusinessCollector.storedList "Technology" "Karachi") 1).2.map fun b => b.source) =
      ["verified_database_fallback", "verified_database_fallback",
        "verified_database_fallback"] := by decide

/-- C3 (amended): the lookup copies only the list, not the records: after
`_get_fallback_businesses`, every record stored under the looked-up
(category, city) agrees with its old value on every field except `source`,
and every stored record's `source` has been rewritten to
`verified_database_fallback`. -/
theorem C3_shallow_copy_amended (stored : List BusinessCollector.Business) (count : Nat) :
    List.Forall₂ BusinessCollector.sameExceptSource
      (BusinessCollector.getFallbackBusinessesStore stored count).2 stored ∧
    ((BusinessCollector.getFallbackBusinessesStore stored count).2.map fun b => b.source) =
      List.replicate stored.length "verified_database_fallback" :=
  ⟨BusinessCollector.forall₂_sameExceptSource_map stored,
   BusinessCollector.map_source_of_setSource stored⟩

/-- C4: under the built-in regex fallback validator, the record with email
"not-an-email" lands in the VALID partition, contradicting the claimed
partition (email absent or syntactically invalid ⇒ invalid): the fallback
`validate_email` raises a plain `ValueError`, which is not the
`EmailNotValidError` subclass the caller catches, so the generic
`except Exception` treats the record as valid.  The record with the valid
email stays valid even though every MX lookup fails, and the record with no
email is invalid. -/
theorem C4_fallback_validator_classification :
    BusinessCollector.validateBusinessEmails BusinessCollector.fallbackValidate (fun _ => false)
        [Fixtures.bGoodEmail, Fixtures.bBadEmail, Fixtures.bNoEmail] =
      ([Fixtures.bGoodEmail, Fixtures.bBadEmail], [Fixtures.bNoEmail]) ∧
    BusinessCollector.fallbackEmailOk "not-an-email" = false ∧
    BusinessCollector.fallbackValidate "not-an-email" = .otherError := by decide

/-- C5 counterexample: both dedup variants keep two records that share a
normalized name but differ in phone — the identifier is the composite
name+phone(+city) key, not two independently-checked keys. -/
theorem C5_counterexample :
    EnhancedScraper.removeDuplicates [Fixtures.dupPhoneA, Fixtures.dupPhoneB] =
        [Fixtures.dupPhoneA, Fixtures.dupPhoneB] ∧
    PyStr.pyStrip (PyStr.pyLower Fixtures.dupPhoneA.name) =
        PyStr.pyStrip (PyStr.pyLower Fixtures.dupPhoneB.name) ∧
    Fixtures.dupPhoneA.phone ≠ Fixtures.dupPhoneB.phone ∧
    FreeBusinessCollector.removeDuplicates [Fixtures.dupPhoneC, Fixtures.dupPhoneD] =
        [Fixtures.dupPhoneC, Fixtures.dupPhoneD] ∧
    PyStr.pyStrip (PyStr.pyLower Fixtures.dupPhoneC.name) =
        PyStr.pyStrip (PyStr.pyLower Fixtures.dupPhoneD.name) := by decide

/-- C5 (amended): the dedup used by the enhanced and free collection runs
drops a record exactly when its composite identifier — normalized name plus
phone-or-`no_phone` (plus city-or-`no_city` in the enhanced variant) — was
already seen: no two output records share their composite identifier, but
records sharing only the name are all kept. -/
theorem C5_composite_dedup_amended :
    (∀ L : List EnhancedScraper.ScrapedBusiness,
        ((EnhancedScraper.removeDuplicates L).map EnhancedScraper.identifier).Nodup) ∧
    (∀ L : List FreeBusinessCollector.BusinessData,
        ((FreeBusinessCollector.removeDuplicates L).map FreeBusinessCollector.identifier).Nodup) :=
  ⟨fun L => EnhancedScraper.removeDuplicatesAux_identifiers_nodup [] L,
   fun L => FreeBusinessCollector.fc_removeDuplicatesAux_identifiers_nodup [] L⟩

/-- C8 counterexample: `collect_businesses("Technology", "related_types", 4)`
with scraping returning nothing raises a `TypeError` to the caller: the
fallback branch looks up the `related_types` string list as a "city",
assigning `business['source']` on a string raises, and the outer recovery
handler calls `_get_fallback_businesses`, which raises the same way. -/
theorem C8_counterexample :
    BusinessCollector.collectBusinesses BusinessCollector.offlineEnv "Technology"
        "related_types" 4 = .error .typeError := by decide

/-- C8 (amended): for every environment and every (category, city,
target_count) with city other than the literal `"related_types"` key,
`collect_businesses` returns a list (possibly empty) and never propagates an
exception; only the pathological city `"related_types"` escapes. -/
theorem C8_no_exception_amended (env : BusinessCollector.CollectEnv)
    (category city : String) (targetCount : Nat) (h : city ≠ "related_types") :
    (BusinessCollector.collectBusinesses env category city targetCount).isOk = true := by
  unfold BusinessCollector.collectBusinesses BusinessCollector.collectPipeline
  cases hfs : BusinessCollector.fallbackStep (env.googleResults ++ env.mapsResults)
      category city targetCount with
  | error e =>
    have hstep := BusinessCollector.fallbackStep_isOk
      (env.googleResults ++ env.mapsResults) category city targetCount h
    rw [hfs] at hstep
    cases hstep
  | ok merged =>
    rfl

/-- C8 witness: the amended statement at a concrete call — the offline
environment with category "Technology", city "Karachi", target 3. -/
theorem C8_no_exception_amended_witness :
    (BusinessCollector.collectBusinesses BusinessCollector.offlineEnv "Technology" "Karachi"
        3).isOk = true :=
  C8_no_exception_amended BusinessCollector.offlineEnv "Technology" "Karachi" 3 (by decide)

/-- C9: `_calculate_confidence_score` equals the spec-side clamped weighted
sum (+0.3 valid name, +0.25 email, +0.2 phone, +0.15 website, +0.1 address,
+0.1 type-in-category, +0.05 trusted source, clamped at 1) on every record;
in particular a record with name, email, phone, website, address and a
trusted source scores exactly 1, and a record with only a valid name scores
exactly 3/10. -/
theorem C9_confidence_score :
    (∀ b : EnhancedScraper.ScrapedBusiness,
        EnhancedScraper.calculateConfidenceScore b = EnhancedScraper.specConfidenceScore b) ∧
    EnhancedScraper.calculateConfidenceScore Fixtures.fullTrustedBusiness = 1 ∧
    EnhancedScraper.calculateConfidenceScore Fixtures.nameOnlyBusiness = 3/10 :=
  ⟨EnhancedScraper.calculateConfidenceScore_eq_spec,
   EnhancedScraper.calculateConfidenceScore_full_eval,
   EnhancedScraper.calculateConfidenceScore_name_only_eval⟩

/-- C10: whenever the extracted name passes the guard (nonempty, stripped
length at least 3), `_extract_business_from_element` returns a record — the
name contributes 0.3 to the confidence score, so the `>= 0.3` floor always
passes and the discard branch is unreachable. -/
theorem C10_confidence_floor_unreachable (name : String)
    (contact : EnhancedScraper.ContactInfo) (category city sourceName : String)
    (h1 : name.isEmpty = false) (h2 : 3 ≤ (PyStr.pyStrip name).data.length) :
    (EnhancedScraper.extractBusinessFromElement (some name) contact category city
        sourceName).isSome = true := by
  unfold EnhancedScraper.extractBusinessFromElement
  dsimp only
  rw [if_neg (show ¬((name.isEmpty ||
      decide ((PyStr.pyStrip name).data.length < 3)) = true) by
    simp
    exact ⟨h1, h2⟩)]
  rw [if_pos (EnhancedScraper.calculateConfidenceScore_ge_of_name _ (by
    simp only [h1, Bool.not_false, Bool.true_and, decide_eq_true_eq]
    exact h2))]
  rfl

/-- C10 witness: the guard hypotheses discharged at the concrete name
"Arpatech" with no extracted contact info. -/
theorem C10_confidence_floor_unreachable_witness :
    (EnhancedScraper.extractBusinessFromElement (some "Arpatech") {} "Technology" "Karachi"
        "pakistan_business_directory").isSome = true :=
  C10_confidence_floor_unreachable "Arpatech" {} "Technology" "Karachi"
    "pakistan_business_directory" (by decide) (by decide)
